import Mathlib

/-!
Shallow embedding of `updateinv.py`: a command-line utility that reads a
numeric capacity value from standard input and synchronizes a single
inventory record (one resource class on one resource provider) against a
remote placement service over HTTP.

The HTTP session is modelled as an oracle `server : Request → HttpResponse`;
each operation records the requests it issues.  JSON values are modelled by
the inductive `Json` (numbers as `Int`, which covers every value the claims
exercise).  Python exceptions are modelled by the `PyError` type and
`Except`.
-/

/-- A JSON value as returned by `resp.json()` or sent as a request body. -/
inductive Json where
  | null : Json
  | str : String → Json
  | num : Int → Json
  | obj : List (String × Json) → Json
  | arr : List Json → Json

/-- HTTP methods used by the script. -/
inductive Method where
  | GET : Method
  | POST : Method
  | PUT : Method
  deriving DecidableEq

/-- An outgoing HTTP request: method, URL, optional JSON body. -/
structure Request where
  method : Method
  url : String
  body : Option Json

/-- An HTTP response: status code and (already parsed) JSON body. -/
structure HttpResponse where
  status : Nat
  body : Json

/-- Python exceptions that the script can raise. `valueError` covers both
the int-parse failure (ParseError) and the provider-not-found rewrap
(NotFoundError); `httpError` is `requests.HTTPError` carrying status and
body. -/
inductive PyError where
  | httpError : Nat → Json → PyError
  | valueError : String → PyError
  | keyError : String → PyError
  | indexError : PyError
  | typeError : String → PyError

/-- Parsed command-line arguments of `run`. -/
structure Args where
  resource_provider_name : String
  resource_class : String
  reserved : Int

/-- Outcome of one `run`: the HTTP requests issued in order, the lines
printed to stdout, and the final result (ok or uncaught exception). -/
structure RunResult where
  requests : List Request
  outputs : List String
  result : Except PyError Unit

/-! ## Python dictionary operations on `Json` -/

/-- Lookup in an association list (first binding wins, as in a dict). -/
def assocLookup (fields : List (String × Json)) (k : String) : Option Json :=
  match fields with
  | [] => none
  | (k', v) :: rest => if k' = k then some v else assocLookup rest k

/-- `d[k] = v` on an association list: replace an existing binding in
place, else append (CPython dict update semantics). -/
def dictSet (fields : List (String × Json)) (k : String) (v : Json) :
    List (String × Json) :=
  match fields with
  | [] => [(k, v)]
  | (k', v') :: rest =>
    if k' = k then (k', v) :: rest else (k', v') :: dictSet rest k v

/-- `d[k]`: raises `KeyError` when the key is missing, `TypeError` when the
value is not a dict. -/
def jsonGet (j : Json) (k : String) : Except PyError Json :=
  match j with
  | Json.obj fields =>
    match assocLookup fields k with
    | some v => Except.ok v
    | none => Except.error (PyError.keyError k)
  | _ => Except.error (PyError.typeError "object is not subscriptable")

/-- `x[0]`: first element of a list, `IndexError` when empty, `TypeError`
when the value is not a list. -/
def jsonIndex0 (j : Json) : Except PyError Json :=
  match j with
  | Json.arr [] => Except.error PyError.indexError
  | Json.arr (x :: _) => Except.ok x
  | _ => Except.error (PyError.typeError "object is not subscriptable")

/-- `d.update({...})`: set each key in turn, preserving other bindings. -/
def pyDictUpdate (j : Json) (kvs : List (String × Json)) :
    Except PyError Json :=
  match j with
  | Json.obj fields =>
    Except.ok (Json.obj (kvs.foldl (fun fs kv => dictSet fs kv.1 kv.2) fields))
  | _ => Except.error (PyError.typeError "object has no attribute update")

/-- Python `%s` interpolation of a JSON value (only strings and numbers
occur on the paths the script takes). -/
def pyStr : Json → String
  | Json.str s => s
  | Json.num n => toString n
  | Json.null => "None"
  | Json.obj _ => "{...}"
  | Json.arr _ => "[...]"

/-- Python `!=` between a JSON value and an int: numbers compare by value,
any other type is simply unequal to an int (Python 2 cross-type
comparison never raises). -/
def pyNe (j : Json) (n : Int) : Bool :=
  match j with
  | Json.num m => m ≠ n
  | _ => true

/-! ## The stdin parser: `_read_stdin_for_total` -/

/-- Python `string.whitespace` membership (the default `str.strip` set). -/
def isPyWs (c : Char) : Bool :=
  c.toNat = 32 || c.toNat = 9 || c.toNat = 10 ||
  c.toNat = 13 || c.toNat = 11 || c.toNat = 12

/-- Membership in Python 2 `string.letters` (ASCII letters, C locale). -/
def isAsciiLetter (c : Char) : Bool :=
  (97 ≤ c.toNat && c.toNat ≤ 122) || (65 ≤ c.toNat && c.toNat ≤ 90)

/-- An ASCII decimal digit. -/
def isDigitC (c : Char) : Bool :=
  48 ≤ c.toNat && c.toNat ≤ 57

/-- Remove the longest prefix of characters satisfying `p`
(left half of Python `str.strip`). -/
def lstrip (p : Char → Bool) (s : List Char) : List Char :=
  s.dropWhile p

/-- Remove the longest suffix of characters satisfying `p`
(right half of Python `str.strip`). -/
def rstrip (p : Char → Bool) (s : List Char) : List Char :=
  (s.reverse.dropWhile p).reverse

/-- Python `s.strip(chars)`: drop characters of the set from both ends. -/
def pyStrip (p : Char → Bool) (s : List Char) : List Char :=
  rstrip p (lstrip p s)

/-- The numeric value of a digit run, base 10. -/
def digitsToNat (ds : List Char) : Nat :=
  ds.foldl (fun a c => 10 * a + (c.toNat - 48)) 0

/-- The `ValueError` raised by `int()` on an unparseable string. -/
def intParseErr (t : List Char) : Except PyError Int :=
  Except.error (PyError.valueError
    ("invalid literal for int() with base 10: " ++ String.mk t))

/-- The digit scan of Python `int(s)` after its own whitespace strip: an
optional sign followed by a non-empty digit run, else `ValueError`. -/
def pyIntCore (t : List Char) : Except PyError Int :=
  match t with
  | [] => intParseErr []
  | c :: rest =>
    if c = '-' then
      if rest ≠ [] ∧ rest.all isDigitC then
        Except.ok (-(digitsToNat rest : Int))
      else intParseErr (c :: rest)
    else if c = '+' then
      if rest ≠ [] ∧ rest.all isDigitC then
        Except.ok (digitsToNat rest : Int)
      else intParseErr (c :: rest)
    else
      if (c :: rest).all isDigitC then
        Except.ok (digitsToNat (c :: rest) : Int)
      else intParseErr (c :: rest)

/-- Python `int(s)` on a string: strip whitespace, then scan the digits. -/
def pyInt (s : List Char) : Except PyError Int :=
  pyIntCore (pyStrip isPyWs s)

/-- `_read_stdin_for_total`: `int(data.strip().strip(string.letters))`. -/
def read_stdin_for_total (data : String) : Except PyError Int :=
  pyInt (pyStrip isAsciiLetter (pyStrip isPyWs data.data))

example : read_stdin_for_total "  5G\n" = Except.ok 5 := rfl
example : read_stdin_for_total "10" = Except.ok 10 := rfl

/-! ## URL construction and HTTP operations -/

/-- `_inventory_url(resource_uuid, resource_class=None)`: the inventories
collection URL, with a trailing class segment only when `resource_class`
is truthy (neither `None` nor the empty string). -/
def inventory_url (base resource_uuid : String)
    (resource_class : Option String) : String :=
  let base_url := base ++ "/resource_providers/" ++ resource_uuid ++
    "/inventories"
  match resource_class with
  | some rc => if rc = "" then base_url else base_url ++ "/" ++ rc
  | none => base_url

/-- The provider lookup request:
`GET {base}/resource_providers?name={name}` (name unescaped). -/
def rpRequest (base name : String) : Request :=
  { method := Method.GET,
    url := base ++ "/resource_providers?name=" ++ name,
    body := none }

/-- The inventory read request:
`GET {base}/resource_providers/{uuid}/inventories/{class}`. -/
def invRequest (base uuid resource_class : String) : Request :=
  { method := Method.GET,
    url := inventory_url base uuid (some resource_class),
    body := none }

/-- Modelled from the spec: `requests.Response.raise_for_status` is not in
this repository; per the spec, any HTTP status ≥ 400 raises an `HttpError`
carrying the status and body, and no lower status raises. -/
def raise_for_status (resp : HttpResponse) : Except PyError Unit :=
  if 400 ≤ resp.status then
    Except.error (PyError.httpError resp.status resp.body)
  else Except.ok ()

/-- The write-path status check used by `create_inventory` and
`update_inventory`: `if resp.status_code != 200: resp.raise_for_status()`. -/
def statusCheck200 (resp : HttpResponse) : Except PyError Unit :=
  if resp.status ≠ 200 then raise_for_status resp else Except.ok ()

/-- `get_resource_provider(resource_name)` applied to the response of its
GET: fail for status ≥ 400, else take `resp.json()['resource_providers'][0]`,
rewrapping `IndexError` (empty array) as the not-found `ValueError`. -/
def get_resource_provider (resource_name : String) (resp : HttpResponse) :
    Except PyError Json :=
  match (if 400 ≤ resp.status then raise_for_status resp else Except.ok ()) with
  | Except.error e => Except.error e
  | Except.ok _ =>
    match jsonGet resp.body "resource_providers" with
    | Except.error e => Except.error e
    | Except.ok v =>
      match jsonIndex0 v with
      | Except.ok x => Except.ok x
      | Except.error PyError.indexError =>
        Except.error (PyError.valueError
          ("unable to find a resource provider with that name: " ++
            resource_name))
      | Except.error e => Except.error e

/-- `get_inventory` applied to the response of its GET: 404 means absent
(`none`), other statuses ≥ 400 fail, otherwise the parsed JSON record. -/
def get_inventory (resp : HttpResponse) : Except PyError (Option Json) :=
  if resp.status = 404 then Except.ok none
  else
    match (if 400 ≤ resp.status then raise_for_status resp
           else Except.ok ()) with
    | Except.error e => Except.error e
    | Except.ok _ => Except.ok (some resp.body)

/-- `create_inventory(resource_provider, resource_class, total, reserved)`:
POST to the collection URL a body of exactly
`resource_provider_generation` (verbatim from the provider), `total`,
`reserved`, `resource_class`; then the 200 check.  Returns the requests
issued and the outcome. -/
def create_inventory (base : String) (server : Request → HttpResponse)
    (resource_provider : Json) (resource_class : String)
    (total reserved : Int) : List Request × Except PyError Unit :=
  match jsonGet resource_provider "uuid" with
  | Except.error e => ([], Except.error e)
  | Except.ok u =>
    let url := inventory_url base (pyStr u) none
    match jsonGet resource_provider "generation" with
    | Except.error e => ([], Except.error e)
    | Except.ok gen =>
      let data := Json.obj
        [("resource_provider_generation", gen),
         ("total", Json.num total),
         ("reserved", Json.num reserved),
         ("resource_class", Json.str resource_class)]
      let req : Request := { method := Method.POST, url := url,
                             body := some data }
      ([req], statusCheck200 (server req))

/-- `update_inventory(resource_provider, inventory, resource_class, total,
reserved)`: merge the new total/reserved into the fetched record
(`inventory.update({...})`, preserving every other field) and PUT it to the
per-class URL; then the 200 check. -/
def update_inventory (base : String) (server : Request → HttpResponse)
    (resource_provider inventory : Json) (resource_class : String)
    (total reserved : Int) : List Request × Except PyError Unit :=
  match jsonGet resource_provider "uuid" with
  | Except.error e => ([], Except.error e)
  | Except.ok u =>
    let url := inventory_url base (pyStr u) (some resource_class)
    match pyDictUpdate inventory
        [("total", Json.num total), ("reserved", Json.num reserved)] with
    | Except.error e => ([], Except.error e)
    | Except.ok newInv =>
      let req : Request := { method := Method.PUT, url := url,
                             body := some newInv }
      ([req], statusCheck200 (server req))

/-- The decision condition of `run`:
`inventory['total'] != total or inventory['reserved'] != args.reserved`,
with Python short-circuit evaluation (the `reserved` lookup happens only
when the totals are equal). -/
def needsUpdate (inventory : Json) (total reserved : Int) :
    Except PyError Bool :=
  match jsonGet inventory "total" with
  | Except.error e => Except.error e
  | Except.ok t =>
    if pyNe t total then Except.ok true
    else
      match jsonGet inventory "reserved" with
      | Except.error e => Except.error e
      | Except.ok r => Except.ok (pyNe r reserved)

/-- The orchestrator `run` (after argument parsing): read stdin, look up
the provider, read the inventory, then create / update / no-op, recording
requests, printed lines, and the final outcome. -/
def run (base : String) (server : Request → HttpResponse) (stdin : String)
    (args : Args) : RunResult :=
  match read_stdin_for_total stdin with
  | Except.error e => ⟨[], [], Except.error e⟩
  | Except.ok total =>
    let rpReq := rpRequest base args.resource_provider_name
    match get_resource_provider args.resource_provider_name (server rpReq) with
    | Except.error e => ⟨[rpReq], [], Except.error e⟩
    | Except.ok resource_provider =>
      match jsonGet resource_provider "uuid" with
      | Except.error e => ⟨[rpReq], [], Except.error e⟩
      | Except.ok uuidJ =>
        let invReq := invRequest base (pyStr uuidJ) args.resource_class
        match get_inventory (server invReq) with
        | Except.error e => ⟨[rpReq, invReq], [], Except.error e⟩
        | Except.ok none =>
          let msg := "Creating inventory for " ++ args.resource_class ++
            ", total: " ++ toString total ++
            ", reserved: " ++ toString args.reserved
          let step := create_inventory base server resource_provider
            args.resource_class total args.reserved
          ⟨[rpReq, invReq] ++ step.1, [msg], step.2⟩
        | Except.ok (some inventory) =>
          match needsUpdate inventory total args.reserved with
          | Except.error e => ⟨[rpReq, invReq], [], Except.error e⟩
          | Except.ok true =>
            let msg := "Updating inventory for " ++ args.resource_class ++
              ", total: " ++ toString total ++
              ", reserved: " ++ toString args.reserved
            let step := update_inventory base server resource_provider
              inventory args.resource_class total args.reserved
            ⟨[rpReq, invReq] ++ step.1, [msg], step.2⟩
          | Except.ok false =>
            ⟨[rpReq, invReq], ["No updates required for " ++
              args.resource_class], Except.ok ()⟩

/-! ## Lemmas about stripping -/

theorem lstrip_append_of_all {p : Char → Bool} {xs ys : List Char}
    (h : ∀ x ∈ xs, p x = true) : lstrip p (xs ++ ys) = lstrip p ys :=
  List.dropWhile_append_of_pos h

theorem lstrip_cons_of_neg {p : Char → Bool} {c : Char} {l : List Char}
    (h : p c = false) : lstrip p (c :: l) = c :: l :=
  List.dropWhile_cons_of_neg (by simp [h])

theorem lstrip_eq_nil_of_all {p : Char → Bool} {l : List Char}
    (h : ∀ x ∈ l, p x = true) : lstrip p l = [] :=
  List.dropWhile_eq_nil_iff.mpr h

theorem rstrip_append_of_all {p : Char → Bool} {l ys : List Char}
    (h : ∀ y ∈ ys, p y = true) : rstrip p (l ++ ys) = rstrip p l := by
  unfold rstrip
  rw [List.reverse_append,
    List.dropWhile_append_of_pos (by intro a ha; exact h a (by simpa using ha))]

theorem rstrip_concat_of_neg {p : Char → Bool} {c : Char} {l : List Char}
    (h : p c = false) : rstrip p (l ++ [c]) = l ++ [c] := by
  unfold rstrip
  rw [List.reverse_append, List.reverse_cons, List.reverse_nil,
    List.nil_append, List.singleton_append,
    List.dropWhile_cons_of_neg (by simp [h])]
  simp

theorem rstrip_nil {p : Char → Bool} : rstrip p [] = [] := rfl

/-- Stripping a list sandwiched between removable junk gives back the
middle whenever the middle's two ends are not removable. -/
theorem pyStrip_sandwich {p : Char → Bool} {xs ys m : List Char}
    (hxs : ∀ x ∈ xs, p x = true) (hys : ∀ y ∈ ys, p y = true)
    (hhead : ∀ c, m.head? = some c → p c = false)
    (hlast : ∀ c, m.getLast? = some c → p c = false) :
    pyStrip p (xs ++ m ++ ys) = m := by
  unfold pyStrip
  rw [List.append_assoc, lstrip_append_of_all hxs]
  match m with
  | [] =>
    rw [List.nil_append, lstrip_eq_nil_of_all hys, rstrip_nil]
  | c :: m' =>
    rw [List.cons_append, lstrip_cons_of_neg (hhead c rfl),
      ← List.cons_append, rstrip_append_of_all hys]
    rcases List.eq_nil_or_concat' (c :: m') with h | ⟨L, b, h⟩
    · exact absurd h (by simp)
    · rw [h]
      exact rstrip_concat_of_neg (hlast b (by rw [h, List.getLast?_concat]))

/-- A left strip never removes characters past one that is not removable:
the remainder keeps everything from that character on. -/
theorem lstrip_sandwich {p : Char → Bool} {d : Char} {r : List Char}
    (hd : p d = false) :
    ∀ a : List Char, ∃ a2, lstrip p (a ++ d :: r) = a2 ++ d :: r := by
  intro a
  induction a with
  | nil => exact ⟨[], by rw [List.nil_append]; exact lstrip_cons_of_neg hd⟩
  | cons x a ih =>
    by_cases hx : p x = true
    · obtain ⟨a2, ha2⟩ := ih
      exact ⟨a2, by
        rw [List.cons_append]
        unfold lstrip at ha2 ⊢
        rw [List.dropWhile_cons_of_pos hx]
        exact ha2⟩
    · exact ⟨x :: a, by
        rw [List.cons_append]
        exact lstrip_cons_of_neg (by simpa using hx)⟩

/-- A right strip never removes characters before one that is not
removable. -/
theorem rstrip_sandwich {p : Char → Bool} {d : Char} {x e : List Char}
    (hd : p d = false) : ∃ e2, rstrip p (x ++ d :: e) = x ++ d :: e2 := by
  obtain ⟨a2, ha2⟩ := lstrip_sandwich (r := x.reverse) hd e.reverse
  refine ⟨a2.reverse, ?_⟩
  unfold rstrip
  unfold lstrip at ha2
  rw [show (x ++ d :: e).reverse = e.reverse ++ d :: x.reverse by simp, ha2]
  simp

/-- Both strips together preserve any segment delimited by two
non-removable characters. -/
theorem pyStrip_sandwich2 {p : Char → Bool} {d1 d2 : Char}
    {a m e : List Char} (h1 : p d1 = false) (h2 : p d2 = false) :
    ∃ a2 e2, pyStrip p (a ++ d1 :: (m ++ d2 :: e)) =
      a2 ++ d1 :: (m ++ d2 :: e2) := by
  obtain ⟨a2, ha2⟩ := lstrip_sandwich (r := m ++ d2 :: e) h1 a
  obtain ⟨e2, he2⟩ := rstrip_sandwich (x := a2 ++ d1 :: m) (e := e) h2
  refine ⟨a2, e2, ?_⟩
  unfold pyStrip
  rw [ha2, show a2 ++ d1 :: (m ++ d2 :: e) = (a2 ++ d1 :: m) ++ d2 :: e by
    simp, he2]
  simp

theorem digit_not_ws {c : Char} (h : isDigitC c = true) : isPyWs c = false := by
  simp only [isDigitC, Bool.and_eq_true, decide_eq_true_eq] at h
  simp only [isPyWs, Bool.or_eq_false_iff, decide_eq_false_iff_not]
  omega

theorem digit_not_letter {c : Char} (h : isDigitC c = true) :
    isAsciiLetter c = false := by
  simp only [isDigitC, Bool.and_eq_true, decide_eq_true_eq] at h
  simp only [isAsciiLetter, Bool.or_eq_false_iff, Bool.and_eq_false_iff,
    decide_eq_false_iff_not]
  omega

theorem letter_not_ws {c : Char} (h : isAsciiLetter c = true) :
    isPyWs c = false := by
  simp only [isAsciiLetter, Bool.or_eq_true, Bool.and_eq_true,
    decide_eq_true_eq] at h
  simp only [isPyWs, Bool.or_eq_false_iff, decide_eq_false_iff_not]
  omega

theorem letter_not_digit {c : Char} (h : isAsciiLetter c = true) :
    isDigitC c = false := by
  simp only [isAsciiLetter, Bool.or_eq_true, Bool.and_eq_true,
    decide_eq_true_eq] at h
  simp only [isDigitC, Bool.and_eq_false_iff, decide_eq_false_iff_not]
  omega

/-- Every character of a mixed letters/digits middle is neither strippable
as whitespace nor, when it is a digit at the ends, as a letter. -/
theorem pyStrip_ws_mid {ls1 ds ls2 : List Char}
    (hls1 : ∀ c ∈ ls1, isAsciiLetter c = true)
    (hds : ∀ c ∈ ds, isDigitC c = true)
    (hls2 : ∀ c ∈ ls2, isAsciiLetter c = true) :
    ∀ c ∈ ls1 ++ ds ++ ls2, isPyWs c = false := by
  intro c hc
  rcases List.mem_append.mp hc with hc | hc
  · rcases List.mem_append.mp hc with hc | hc
    · exact letter_not_ws (hls1 c hc)
    · exact digit_not_ws (hds c hc)
  · exact letter_not_ws (hls2 c hc)

/-- C5: for every input of the form whitespace* letters* digits+ letters*
whitespace*, the parser returns exactly the digit run as a base-10
integer. -/
theorem C5_parser_extracts_digit_run {ws1 ls1 ds ls2 ws2 : List Char}
    (hws1 : ∀ c ∈ ws1, isPyWs c = true)
    (hls1 : ∀ c ∈ ls1, isAsciiLetter c = true)
    (hne : ds ≠ []) (hds : ∀ c ∈ ds, isDigitC c = true)
    (hls2 : ∀ c ∈ ls2, isAsciiLetter c = true)
    (hws2 : ∀ c ∈ ws2, isPyWs c = true) :
    read_stdin_for_total (String.mk (ws1 ++ (ls1 ++ ds ++ ls2) ++ ws2)) =
      Except.ok (digitsToNat ds : Int) := by
  have hmid := pyStrip_ws_mid hls1 hds hls2
  unfold read_stdin_for_total
  have hdata : (String.mk (ws1 ++ (ls1 ++ ds ++ ls2) ++ ws2)).data =
      ws1 ++ (ls1 ++ ds ++ ls2) ++ ws2 := rfl
  rw [hdata]
  rw [pyStrip_sandwich hws1 hws2
    (fun c hc => hmid c (List.mem_of_mem_head? (by rw [hc]; simp)))
    (fun c hc => hmid c (List.mem_of_getLast?_eq_some hc))]
  rw [pyStrip_sandwich hls1 hls2
    (fun c hc =>
      digit_not_letter (hds c (List.mem_of_mem_head? (by rw [hc]; simp))))
    (fun c hc => digit_not_letter (hds c (List.mem_of_getLast?_eq_some hc)))]
  unfold pyInt
  have hstrip : pyStrip isPyWs ds = ds := by
    have h1 := @pyStrip_sandwich isPyWs [] [] ds
      (fun x hx => absurd hx (List.not_mem_nil x))
      (fun x hx => absurd hx (List.not_mem_nil x))
      (fun c hc =>
        digit_not_ws (hds c (List.mem_of_mem_head? (by rw [hc]; simp))))
      (fun c hc => digit_not_ws (hds c (List.mem_of_getLast?_eq_some hc)))
    simpa using h1
  rw [hstrip]
  match ds, hne with
  | c :: rest, _ =>
    have hc : isDigitC c = true := hds c (by simp)
    have hcm : ¬(c = '-') := by
      intro h; rw [h] at hc; exact absurd hc (by decide)
    have hcp : ¬(c = '+') := by
      intro h; rw [h] at hc; exact absurd hc (by decide)
    unfold pyIntCore
    simp only [if_neg hcm, if_neg hcp,
      if_pos (List.all_eq_true.mpr fun x hx => hds x hx)]

/-- If a letter is present in the argument of the digit scan, the parse
fails with a `ValueError`. -/
theorem pyIntCore_error_of_letter_mem {t : List Char} {l0 : Char}
    (hl : isAsciiLetter l0 = true) (hm : l0 ∈ t) :
    ∃ msg, pyIntCore t = Except.error (PyError.valueError msg) := by
  match t with
  | [] => exact absurd hm (List.not_mem_nil l0)
  | c :: rest =>
    refine ⟨"invalid literal for int() with base 10: " ++
      String.mk (c :: rest), ?_⟩
    simp only [pyIntCore]
    by_cases hcm : c = '-'
    · have hrest : l0 ∈ rest := by
        rcases List.mem_cons.mp hm with h0 | h0
        · rw [h0, hcm] at hl; exact absurd hl (by decide)
        · exact h0
      have hall : rest.all isDigitC = false := by
        rw [Bool.eq_false_iff]
        intro hall
        have h3 := List.all_eq_true.mp hall l0 hrest
        rw [letter_not_digit hl] at h3
        exact absurd h3 (by decide)
      rw [if_pos hcm, if_neg (by rw [hall]; simp)]
      rfl
    · by_cases hcp : c = '+'
      · have hrest : l0 ∈ rest := by
          rcases List.mem_cons.mp hm with h0 | h0
          · rw [h0, hcp] at hl; exact absurd hl (by decide)
          · exact h0
        have hall : rest.all isDigitC = false := by
          rw [Bool.eq_false_iff]
          intro hall
          have h3 := List.all_eq_true.mp hall l0 hrest
          rw [letter_not_digit hl] at h3
          exact absurd h3 (by decide)
        rw [if_neg hcm, if_pos hcp, if_neg (by rw [hall]; simp)]
        rfl
      · have hall : (c :: rest).all isDigitC = false := by
          rw [Bool.eq_false_iff]
          intro hall
          have h3 := List.all_eq_true.mp hall l0 hm
          rw [letter_not_digit hl] at h3
          exact absurd h3 (by decide)
        rw [if_neg hcm, if_neg hcp, if_neg (by rw [hall]; simp)]
        rfl

/-- C6 core: a letter strictly between two digits survives both strips and
makes the integer parse fail. -/
theorem read_stdin_letter_between_digits {a b c e : List Char}
    {d1 l0 d2 : Char} (h1 : isDigitC d1 = true) (hl : isAsciiLetter l0 = true)
    (h2 : isDigitC d2 = true) :
    ∃ msg, read_stdin_for_total
        (String.mk (a ++ d1 :: (b ++ l0 :: c ++ d2 :: e))) =
      Except.error (PyError.valueError msg) := by
  unfold read_stdin_for_total
  have hdata : (String.mk (a ++ d1 :: (b ++ l0 :: c ++ d2 :: e))).data =
      a ++ d1 :: ((b ++ l0 :: c) ++ d2 :: e) := by simp
  rw [hdata]
  obtain ⟨a2, e2, hws⟩ := pyStrip_sandwich2 (p := isPyWs) (a := a)
    (m := b ++ l0 :: c) (e := e) (digit_not_ws h1) (digit_not_ws h2)
  rw [hws]
  obtain ⟨a3, e3, hlet⟩ := pyStrip_sandwich2 (p := isAsciiLetter) (a := a2)
    (m := b ++ l0 :: c) (e := e2) (digit_not_letter h1) (digit_not_letter h2)
  rw [hlet]
  obtain ⟨a4, e4, hws2⟩ := pyStrip_sandwich2 (p := isPyWs) (a := a3)
    (m := b ++ l0 :: c) (e := e3) (digit_not_ws h1) (digit_not_ws h2)
  unfold pyInt
  exact pyIntCore_error_of_letter_mem hl (by rw [hws2]; simp)

/-- C6 other half: the empty input fails the integer parse. -/
theorem read_stdin_empty :
    read_stdin_for_total "" =
      Except.error (PyError.valueError
        "invalid literal for int() with base 10: ") := rfl

/-! ## Dictionary frame lemmas -/

theorem assocLookup_dictSet_self (fs : List (String × Json)) (k : String)
    (v : Json) : assocLookup (dictSet fs k v) k = some v := by
  induction fs with
  | nil => simp [dictSet, assocLookup]
  | cons p rest ih =>
    obtain ⟨k', v'⟩ := p
    by_cases h : k' = k
    · simp [dictSet, h, assocLookup]
    · simp [dictSet, h, assocLookup, ih]

theorem assocLookup_dictSet_ne (fs : List (String × Json)) (k k' : String)
    (v : Json) (h : k' ≠ k) :
    assocLookup (dictSet fs k' v) k = assocLookup fs k := by
  induction fs with
  | nil => simp [dictSet, assocLookup, h]
  | cons p rest ih =>
    obtain ⟨k0, v0⟩ := p
    by_cases h0 : k0 = k'
    · simp [dictSet, h0, assocLookup, h]
    · simp only [dictSet, if_neg h0, assocLookup]
      by_cases h1 : k0 = k
      · simp [h1]
      · simp [h1, ih]

/-- The updated record sent by `update_inventory`: the fetched fields with
`total` and `reserved` overwritten. -/
def updatedFields (fields : List (String × Json)) (total reserved : Int) :
    List (String × Json) :=
  dictSet (dictSet fields "total" (Json.num total)) "reserved"
    (Json.num reserved)

theorem updatedFields_total (fields : List (String × Json))
    (total reserved : Int) :
    assocLookup (updatedFields fields total reserved) "total" =
      some (Json.num total) := by
  unfold updatedFields
  rw [assocLookup_dictSet_ne _ _ _ _ (by decide)]
  exact assocLookup_dictSet_self _ _ _

theorem updatedFields_reserved (fields : List (String × Json))
    (total reserved : Int) :
    assocLookup (updatedFields fields total reserved) "reserved" =
      some (Json.num reserved) :=
  assocLookup_dictSet_self _ _ _

theorem updatedFields_frame (fields : List (String × Json))
    (total reserved : Int) (k : String) (hk1 : k ≠ "total")
    (hk2 : k ≠ "reserved") :
    assocLookup (updatedFields fields total reserved) k =
      assocLookup fields k := by
  unfold updatedFields
  rw [assocLookup_dictSet_ne _ _ _ _ (fun h => hk2 h.symm),
    assocLookup_dictSet_ne _ _ _ _ (fun h => hk1 h.symm)]

theorem pyDictUpdate_obj (fields : List (String × Json))
    (total reserved : Int) :
    pyDictUpdate (Json.obj fields)
        [("total", Json.num total), ("reserved", Json.num reserved)] =
      Except.ok (Json.obj (updatedFields fields total reserved)) := by
  simp [pyDictUpdate, updatedFields, List.foldl]

/-! ## Reduction lemmas for the orchestrator branches -/

theorem get_inventory_404 (resp : HttpResponse) (h : resp.status = 404) :
    get_inventory resp = Except.ok none := by
  simp [get_inventory, h]

theorem get_resource_provider_error_of_ge400 (name : String)
    (resp : HttpResponse) (h : 400 ≤ resp.status) :
    get_resource_provider name resp =
      Except.error (PyError.httpError resp.status resp.body) := by
  simp [get_resource_provider, raise_for_status, h]

theorem get_resource_provider_empty (name : String) (resp : HttpResponse)
    (hst : resp.status < 400) (fields : List (String × Json))
    (hbody : resp.body = Json.obj fields)
    (hrp : assocLookup fields "resource_providers" = some (Json.arr [])) :
    get_resource_provider name resp =
      Except.error (PyError.valueError
        ("unable to find a resource provider with that name: " ++ name)) := by
  simp [get_resource_provider, Nat.not_le.mpr hst, jsonGet, hbody, hrp,
    jsonIndex0]

theorem get_resource_provider_first (name : String) (resp : HttpResponse)
    (hst : resp.status < 400) (fields : List (String × Json)) (x : Json)
    (rest : List Json) (hbody : resp.body = Json.obj fields)
    (hrp : assocLookup fields "resource_providers" =
      some (Json.arr (x :: rest))) :
    get_resource_provider name resp = Except.ok x := by
  simp [get_resource_provider, Nat.not_le.mpr hst, jsonGet, hbody, hrp,
    jsonIndex0]

/-- When the fetched inventory needs an update, `run` issues exactly the
two reads followed by one PUT of the merged record. -/
theorem run_update_branch (base stdin : String) (args : Args)
    (server : Request → HttpResponse) (total : Int) (provider : Json)
    (uuid : String) (fields : List (String × Json))
    (hstdin : read_stdin_for_total stdin = Except.ok total)
    (hrp : get_resource_provider args.resource_provider_name
      (server (rpRequest base args.resource_provider_name)) =
      Except.ok provider)
    (huuid : jsonGet provider "uuid" = Except.ok (Json.str uuid))
    (hinv : get_inventory (server (invRequest base uuid args.resource_class)) =
      Except.ok (some (Json.obj fields)))
    (hneed : needsUpdate (Json.obj fields) total args.reserved =
      Except.ok true) :
    run base server stdin args =
      ⟨[rpRequest base args.resource_provider_name,
        invRequest base uuid args.resource_class,
        { method := Method.PUT,
          url := inventory_url base uuid (some args.resource_class),
          body := some (Json.obj (updatedFields fields total args.reserved)) }],
       ["Updating inventory for " ++ args.resource_class ++ ", total: " ++
        toString total ++ ", reserved: " ++ toString args.reserved],
       statusCheck200 (server
        { method := Method.PUT,
          url := inventory_url base uuid (some args.resource_class),
          body := some (Json.obj
            (updatedFields fields total args.reserved)) })⟩ := by
  simp only [run, hstdin, hrp, huuid, pyStr, hinv, hneed,
    update_inventory, pyDictUpdate_obj, List.cons_append, List.nil_append]

/-- When the fetched inventory matches the observed values, `run` stops
after the two reads. -/
theorem run_noop_branch (base stdin : String) (args : Args)
    (server : Request → HttpResponse) (total : Int) (provider : Json)
    (uuid : String) (inventory : Json)
    (hstdin : read_stdin_for_total stdin = Except.ok total)
    (hrp : get_resource_provider args.resource_provider_name
      (server (rpRequest base args.resource_provider_name)) =
      Except.ok provider)
    (huuid : jsonGet provider "uuid" = Except.ok (Json.str uuid))
    (hinv : get_inventory (server (invRequest base uuid args.resource_class)) =
      Except.ok (some inventory))
    (hneed : needsUpdate inventory total args.reserved = Except.ok false) :
    run base server stdin args =
      ⟨[rpRequest base args.resource_provider_name,
        invRequest base uuid args.resource_class],
       ["No updates required for " ++ args.resource_class],
       Except.ok ()⟩ := by
  simp only [run, hstdin, hrp, huuid, pyStr, hinv, hneed]

/-- When the inventory read reports absence, `run` issues the two reads
followed by one POST of the four-field create body. -/
theorem run_create_branch (base stdin : String) (args : Args)
    (server : Request → HttpResponse) (total : Int) (provider gen : Json)
    (uuid : String)
    (hstdin : read_stdin_for_total stdin = Except.ok total)
    (hrp : get_resource_provider args.resource_provider_name
      (server (rpRequest base args.resource_provider_name)) =
      Except.ok provider)
    (huuid : jsonGet provider "uuid" = Except.ok (Json.str uuid))
    (hgen : jsonGet provider "generation" = Except.ok gen)
    (hinv : get_inventory (server (invRequest base uuid args.resource_class)) =
      Except.ok none) :
    run base server stdin args =
      ⟨[rpRequest base args.resource_provider_name,
        invRequest base uuid args.resource_class,
        { method := Method.POST,
          url := inventory_url base uuid none,
          body := some (Json.obj
            [("resource_provider_generation", gen),
             ("total", Json.num total),
             ("reserved", Json.num args.reserved),
             ("resource_class", Json.str args.resource_class)]) }],
       ["Creating inventory for " ++ args.resource_class ++ ", total: " ++
        toString total ++ ", reserved: " ++ toString args.reserved],
       statusCheck200 (server
        { method := Method.POST,
          url := inventory_url base uuid none,
          body := some (Json.obj
            [("resource_provider_generation", gen),
             ("total", Json.num total),
             ("reserved", Json.num args.reserved),
             ("resource_class", Json.str args.resource_class)]) })⟩ := by
  simp only [run, hstdin, hrp, huuid, pyStr, hinv, hgen,
    create_inventory, List.cons_append, List.nil_append]

/-- When the provider lookup fails, `run` stops after the one request. -/
theorem run_rp_error_branch (base stdin : String) (args : Args)
    (server : Request → HttpResponse) (total : Int) (e : PyError)
    (hstdin : read_stdin_for_total stdin = Except.ok total)
    (hrp : get_resource_provider args.resource_provider_name
      (server (rpRequest base args.resource_provider_name)) =
      Except.error e) :
    run base server stdin args =
      ⟨[rpRequest base args.resource_provider_name], [],
       Except.error e⟩ := by
  simp only [run, hstdin, hrp]

theorem needsUpdate_true_of_diff (fields : List (String × Json))
    (t0 r0 total reserved : Int)
    (ht : assocLookup fields "total" = some (Json.num t0))
    (hr : assocLookup fields "reserved" = some (Json.num r0))
    (hdiff : t0 ≠ total ∨ r0 ≠ reserved) :
    needsUpdate (Json.obj fields) total reserved = Except.ok true := by
  by_cases h : t0 = total
  · have hr0 : r0 ≠ reserved := hdiff.resolve_left (by simp [h])
    simp [needsUpdate, jsonGet, ht, hr, pyNe, h, hr0]
  · simp [needsUpdate, jsonGet, ht, pyNe, h]

theorem needsUpdate_false_of_eq (fields : List (String × Json))
    (total reserved : Int)
    (ht : assocLookup fields "total" = some (Json.num total))
    (hr : assocLookup fields "reserved" = some (Json.num reserved)) :
    needsUpdate (Json.obj fields) total reserved = Except.ok false := by
  simp [needsUpdate, jsonGet, ht, hr, pyNe]

/-! ## Claim theorems -/

/-- C1: when the fetched inventory record exists and its total or reserved
differs from the observed values, exactly one PUT is issued, and its body
is the fetched record with `total` and `reserved` replaced by the observed
values and every other field unchanged. -/
theorem C1_update_once_preserving_fields (base stdin : String) (args : Args)
    (server : Request → HttpResponse) (total t0 r0 : Int) (provider : Json)
    (uuid : String) (fields : List (String × Json))
    (hstdin : read_stdin_for_total stdin = Except.ok total)
    (hrp : get_resource_provider args.resource_provider_name
      (server (rpRequest base args.resource_provider_name)) =
      Except.ok provider)
    (huuid : jsonGet provider "uuid" = Except.ok (Json.str uuid))
    (hinv : get_inventory (server (invRequest base uuid args.resource_class)) =
      Except.ok (some (Json.obj fields)))
    (ht : assocLookup fields "total" = some (Json.num t0))
    (hr : assocLookup fields "reserved" = some (Json.num r0))
    (hdiff : t0 ≠ total ∨ r0 ≠ args.reserved) :
    (run base server stdin args).requests.filter
        (fun r => r.method == Method.PUT) =
      [{ method := Method.PUT,
         url := inventory_url base uuid (some args.resource_class),
         body := some (Json.obj (updatedFields fields total args.reserved)) }]
    ∧ assocLookup (updatedFields fields total args.reserved) "total" =
        some (Json.num total)
    ∧ assocLookup (updatedFields fields total args.reserved) "reserved" =
        some (Json.num args.reserved)
    ∧ ∀ k, k ≠ "total" → k ≠ "reserved" →
        assocLookup (updatedFields fields total args.reserved) k =
          assocLookup fields k := by
  have hneed := needsUpdate_true_of_diff fields t0 r0 total args.reserved
    ht hr hdiff
  rw [run_update_branch base stdin args server total provider uuid fields
    hstdin hrp huuid hinv hneed]
  refine ⟨?_, updatedFields_total fields total args.reserved,
    updatedFields_reserved fields total args.reserved,
    fun k hk1 hk2 => updatedFields_frame fields total args.reserved k hk1 hk2⟩
  simp [rpRequest, invRequest, List.filter,
    show (Method.GET == Method.PUT) = false from rfl,
    show (Method.PUT == Method.PUT) = true from rfl]

/-- C2: when the fetched inventory record exists and matches the observed
total and reserved exactly, no POST or PUT is issued, the program prints
the no-updates message, and the run (a pure function of its inputs, hence
identical on an unchanged second run) ends successfully after the two
reads. -/
theorem C2_noop_when_equal (base stdin : String) (args : Args)
    (server : Request → HttpResponse) (total : Int) (provider : Json)
    (uuid : String) (fields : List (String × Json))
    (hstdin : read_stdin_for_total stdin = Except.ok total)
    (hrp : get_resource_provider args.resource_provider_name
      (server (rpRequest base args.resource_provider_name)) =
      Except.ok provider)
    (huuid : jsonGet provider "uuid" = Except.ok (Json.str uuid))
    (hinv : get_inventory (server (invRequest base uuid args.resource_class)) =
      Except.ok (some (Json.obj fields)))
    (ht : assocLookup fields "total" = some (Json.num total))
    (hr : assocLookup fields "reserved" = some (Json.num args.reserved)) :
    (run base server stdin args).requests.filter
        (fun r => r.method == Method.POST || r.method == Method.PUT) = []
    ∧ (run base server stdin args).requests =
        [rpRequest base args.resource_provider_name,
         invRequest base uuid args.resource_class]
    ∧ (run base server stdin args).outputs =
        ["No updates required for " ++ args.resource_class]
    ∧ (run base server stdin args).result = Except.ok () := by
  have hneed := needsUpdate_false_of_eq fields total args.reserved ht hr
  rw [run_noop_branch base stdin args server total provider uuid
    (Json.obj fields) hstdin hrp huuid hinv hneed]
  refine ⟨?_, rfl, rfl, rfl⟩
  simp [rpRequest, invRequest, List.filter,
    show (Method.GET == Method.POST || Method.GET == Method.PUT) = false
      from rfl]

/-! ## Concrete test fixtures for witnesses -/

/-- A placement service with provider `myrp4` (uuid `U`, generation 3) and
an existing `DISK_GB` inventory of total 10, reserved 0. -/
def wServerExisting : Request → HttpResponse := fun req =>
  match req.method with
  | Method.GET =>
    if req.url = "http://pl/resource_providers?name=myrp4" then
      ⟨200, Json.obj [("resource_providers", Json.arr
        [Json.obj [("uuid", Json.str "U"), ("generation", Json.num 3),
                   ("name", Json.str "myrp4")]])]⟩
    else
      ⟨200, Json.obj [("resource_class", Json.str "DISK_GB"),
        ("total", Json.num 10), ("reserved", Json.num 0),
        ("resource_provider_generation", Json.num 3)]⟩
  | _ => ⟨200, Json.null⟩

/-- The same service but with no `DISK_GB` inventory yet (404). -/
def wServerAbsent : Request → HttpResponse := fun req =>
  match req.method with
  | Method.GET =>
    if req.url = "http://pl/resource_providers?name=myrp4" then
      ⟨200, Json.obj [("resource_providers", Json.arr
        [Json.obj [("uuid", Json.str "U"), ("generation", Json.num 3),
                   ("name", Json.str "myrp4")]])]⟩
    else ⟨404, Json.null⟩
  | _ => ⟨200, Json.null⟩

/-- A service that knows no provider at all. -/
def wServerNoProvider : Request → HttpResponse := fun _ =>
  ⟨200, Json.obj [("resource_providers", Json.arr [])]⟩

/-- The inventory fields `wServerExisting` stores for `DISK_GB`. -/
def wInvFields : List (String × Json) :=
  [("resource_class", Json.str "DISK_GB"), ("total", Json.num 10),
   ("reserved", Json.num 0), ("resource_provider_generation", Json.num 3)]

/-- The provider record `wServerExisting` returns. -/
def wProvider : Json :=
  Json.obj [("uuid", Json.str "U"), ("generation", Json.num 3),
            ("name", Json.str "myrp4")]

/-- C1 witness: with stored total 10/reserved 0 and observed 20/2, the run
issues exactly one PUT whose body is the stored record with the two fields
replaced. -/
theorem C1_witness :
    (run "http://pl" wServerExisting "20G\n"
        ⟨"myrp4", "DISK_GB", 2⟩).requests.filter
        (fun r => r.method == Method.PUT) =
      [{ method := Method.PUT,
         url := "http://pl/resource_providers/U/inventories/DISK_GB",
         body := some (Json.obj
           [("resource_class", Json.str "DISK_GB"), ("total", Json.num 20),
            ("reserved", Json.num 2),
            ("resource_provider_generation", Json.num 3)]) }] :=
  (C1_update_once_preserving_fields "http://pl" "20G\n"
    ⟨"myrp4", "DISK_GB", 2⟩ wServerExisting 20 10 0 wProvider "U" wInvFields
    rfl rfl rfl rfl rfl rfl (Or.inl (by decide))).1

/-- C2 witness: with stored total 10/reserved 0 and observed 10/0, the run
makes no write request and prints the no-updates message. -/
theorem C2_witness :
    (run "http://pl" wServerExisting "10G\n"
        ⟨"myrp4", "DISK_GB", 0⟩).requests.filter
        (fun r => r.method == Method.POST || r.method == Method.PUT) = []
    ∧ (run "http://pl" wServerExisting "10G\n"
        ⟨"myrp4", "DISK_GB", 0⟩).outputs = ["No updates required for DISK_GB"]
    ∧ (run "http://pl" wServerExisting "10G\n"
        ⟨"myrp4", "DISK_GB", 0⟩).result = Except.ok () :=
  have h := C2_noop_when_equal "http://pl" "10G\n" ⟨"myrp4", "DISK_GB", 0⟩
    wServerExisting 10 wProvider "U" wInvFields rfl rfl rfl rfl rfl rfl
  ⟨h.1, h.2.2.1, h.2.2.2⟩

/-- C3: an HTTP 404 on the inventory read is the absent marker, not an
error, and the run then issues exactly one POST (create) and no PUT
(update). -/
theorem C3_absent_creates_never_updates (base stdin : String) (args : Args)
    (server : Request → HttpResponse) (total : Int) (provider gen : Json)
    (uuid : String)
    (hstdin : read_stdin_for_total stdin = Except.ok total)
    (hrp : get_resource_provider args.resource_provider_name
      (server (rpRequest base args.resource_provider_name)) =
      Except.ok provider)
    (huuid : jsonGet provider "uuid" = Except.ok (Json.str uuid))
    (hgen : jsonGet provider "generation" = Except.ok gen)
    (h404 : (server (invRequest base uuid args.resource_class)).status = 404) :
    get_inventory (server (invRequest base uuid args.resource_class)) =
      Except.ok none
    ∧ (run base server stdin args).requests.filter
        (fun r => r.method == Method.POST) =
      [{ method := Method.POST,
         url := inventory_url base uuid none,
         body := some (Json.obj
           [("resource_provider_generation", gen),
            ("total", Json.num total),
            ("reserved", Json.num args.reserved),
            ("resource_class", Json.str args.resource_class)]) }]
    ∧ (run base server stdin args).requests.filter
        (fun r => r.method == Method.PUT) = [] := by
  have hinv := get_inventory_404 _ h404
  refine ⟨hinv, ?_, ?_⟩ <;>
    rw [run_create_branch base stdin args server total provider gen uuid
      hstdin hrp huuid hgen hinv] <;>
    simp [rpRequest, invRequest, List.filter,
      show (Method.GET == Method.POST) = false from rfl,
      show (Method.POST == Method.POST) = true from rfl,
      show (Method.GET == Method.PUT) = false from rfl,
      show (Method.POST == Method.PUT) = false from rfl]

/-- C3 witness: against a service with no `DISK_GB` inventory (404), the
run reports absence, POSTs once and never PUTs. -/
theorem C3_witness :
    get_inventory (wServerAbsent (invRequest "http://pl" "U" "DISK_GB")) =
      Except.ok none
    ∧ (run "http://pl" wServerAbsent "20G\n"
        ⟨"myrp4", "DISK_GB", 2⟩).requests.filter
        (fun r => r.method == Method.POST) =
      [{ method := Method.POST,
         url := "http://pl/resource_providers/U/inventories",
         body := some (Json.obj
           [("resource_provider_generation", Json.num 3),
            ("total", Json.num 20),
            ("reserved", Json.num 2),
            ("resource_class", Json.str "DISK_GB")]) }]
    ∧ (run "http://pl" wServerAbsent "20G\n"
        ⟨"myrp4", "DISK_GB", 2⟩).requests.filter
        (fun r => r.method == Method.PUT) = [] :=
  C3_absent_creates_never_updates "http://pl" "20G\n" ⟨"myrp4", "DISK_GB", 2⟩
    wServerAbsent 20 wProvider (Json.num 3) "U" rfl rfl rfl rfl rfl

/-- C7: when the provider lookup returns an empty `resource_providers`
array, the run fails with the not-found `ValueError` and makes no further
HTTP request after the single lookup. -/
theorem C7_notfound_stops (base stdin : String) (args : Args)
    (server : Request → HttpResponse) (total : Int)
    (fields : List (String × Json))
    (hstdin : read_stdin_for_total stdin = Except.ok total)
    (hst : (server (rpRequest base args.resource_provider_name)).status < 400)
    (hbody : (server (rpRequest base args.resource_provider_name)).body =
      Json.obj fields)
    (hempty : assocLookup fields "resource_providers" =
      some (Json.arr [])) :
    run base server stdin args =
      ⟨[rpRequest base args.resource_provider_name], [],
       Except.error (PyError.valueError
         ("unable to find a resource provider with that name: " ++
           args.resource_provider_name))⟩ := by
  have hrp := get_resource_provider_empty args.resource_provider_name
    (server (rpRequest base args.resource_provider_name)) hst fields
    hbody hempty
  exact run_rp_error_branch base stdin args server total _ hstdin hrp

/-- C7 witness: a service knowing no providers makes the run stop after one
GET with the not-found error. -/
theorem C7_witness :
    run "http://pl" wServerNoProvider "20G\n" ⟨"myrp4", "DISK_GB", 2⟩ =
      ⟨[rpRequest "http://pl" "myrp4"], [],
       Except.error (PyError.valueError
         "unable to find a resource provider with that name: myrp4")⟩ :=
  C7_notfound_stops "http://pl" "20G\n" ⟨"myrp4", "DISK_GB", 2⟩
    wServerNoProvider 20 [("resource_providers", Json.arr [])]
    rfl (by decide) rfl rfl

/-- C5 witness: the two examples of the claim, `"  5G\\n"` and `"10"`. -/
theorem C5_witness :
    read_stdin_for_total "  5G\n" = Except.ok 5
    ∧ read_stdin_for_total "10" = Except.ok 10 :=
  ⟨@C5_parser_extracts_digit_run [' ', ' '] [] ['5'] ['G'] ['\n']
    (by decide) (by decide) (by decide) (by decide) (by decide) (by decide),
   @C5_parser_extracts_digit_run [] [] ['1', '0'] [] []
    (by decide) (by decide) (by decide) (by decide) (by decide) (by decide)⟩

/-- C6: letters mixed strictly between digits, and the empty input, make
the parser fail with a `ValueError` (ParseError). -/
theorem C6_parser_rejects_interior_letters_and_empty :
    (∀ (a b c e : List Char) (d1 l0 d2 : Char),
      isDigitC d1 = true → isAsciiLetter l0 = true → isDigitC d2 = true →
      ∃ msg, read_stdin_for_total
          (String.mk (a ++ d1 :: (b ++ l0 :: c ++ d2 :: e))) =
        Except.error (PyError.valueError msg))
    ∧ read_stdin_for_total "" =
        Except.error (PyError.valueError
          "invalid literal for int() with base 10: ") :=
  ⟨fun _ _ _ _ _ _ _ h1 hl h2 =>
    read_stdin_letter_between_digits h1 hl h2,
   read_stdin_empty⟩

/-- C6 witness: the claim's example `"5G2"` fails with the int ValueError. -/
theorem C6_witness :
    read_stdin_for_total (String.mk ['5', 'G', '2']) =
      Except.error (PyError.valueError
        "invalid literal for int() with base 10: 5G2") := by
  obtain ⟨msg, h⟩ := C6_parser_rejects_interior_letters_and_empty.1
    [] [] [] [] '5' 'G' '2' rfl rfl rfl
  have h2 : (Except.error (PyError.valueError msg) : Except PyError Int) =
      Except.error (PyError.valueError
        "invalid literal for int() with base 10: 5G2") :=
    h.symm.trans rfl
  injection h2 with h3
  injection h3 with h4
  rw [h4] at h
  exact h

/-- C4 counterexample: an HTTP 201 response is not 200, yet both write
operations succeed silently (`raise_for_status` raises only for ≥ 400),
refuting "it succeeds only on status 200". -/
theorem C4_counterexample :
    (create_inventory "http://pl" (fun _ => ⟨201, Json.null⟩) wProvider
      "DISK_GB" 20 2).2 = Except.ok ()
    ∧ (update_inventory "http://pl" (fun _ => ⟨201, Json.null⟩) wProvider
      (Json.obj wInvFields) "DISK_GB" 20 2).2 = Except.ok ()
    ∧ 201 ≠ 200 :=
  ⟨rfl, rfl, by decide⟩

/-- C4 amended: each write operation checks its response with the
`!= 200` guard around `raise_for_status`, which fails with an `HttpError`
carrying status and body exactly when the status is ≥ 400; every status
below 400 (200 included, but also e.g. 201) succeeds. -/
theorem C4_write_fails_iff_ge400 :
    (∀ resp : HttpResponse, statusCheck200 resp =
      if 400 ≤ resp.status then
        Except.error (PyError.httpError resp.status resp.body)
      else Except.ok ())
    ∧ (∀ (base : String) (server : Request → HttpResponse) (provider : Json)
        (rc : String) (total reserved : Int) (req : Request)
        (res : Except PyError Unit),
        create_inventory base server provider rc total reserved =
          ([req], res) →
        res = statusCheck200 (server req))
    ∧ (∀ (base : String) (server : Request → HttpResponse)
        (provider inventory : Json) (rc : String) (total reserved : Int)
        (req : Request) (res : Except PyError Unit),
        update_inventory base server provider inventory rc total reserved =
          ([req], res) →
        res = statusCheck200 (server req)) := by
  refine ⟨?_, ?_, ?_⟩
  · intro resp
    by_cases h : resp.status = 200
    · simp [statusCheck200, h, raise_for_status]
    · simp [statusCheck200, h, raise_for_status]
  · intro base server provider rc total reserved req res H
    unfold create_inventory at H
    match hu : jsonGet provider "uuid" with
    | Except.error e => rw [hu] at H; simp at H
    | Except.ok u =>
      rw [hu] at H
      match hg : jsonGet provider "generation" with
      | Except.error e => rw [hg] at H; simp at H
      | Except.ok gen =>
        rw [hg] at H
        simp only [Prod.mk.injEq, List.cons.injEq, and_true] at H
        rw [← H.2, H.1]
  · intro base server provider inventory rc total reserved req res H
    unfold update_inventory at H
    match hu : jsonGet provider "uuid" with
    | Except.error e => rw [hu] at H; simp at H
    | Except.ok u =>
      rw [hu] at H
      match hi : pyDictUpdate inventory
          [("total", Json.num total), ("reserved", Json.num reserved)] with
      | Except.error e => rw [hi] at H; simp at H
      | Except.ok newInv =>
        rw [hi] at H
        simp only [Prod.mk.injEq, List.cons.injEq, and_true] at H
        rw [← H.2, H.1]

/-- C4 amended witness: at a service answering 201, the create outcome is
exactly the status check of the one POST it sent, which succeeds. -/
theorem C4_witness :
    Except.ok () = statusCheck200 ((fun (_ : Request) =>
      (⟨201, Json.null⟩ : HttpResponse))
      { method := Method.POST,
        url := "http://pl/resource_providers/U/inventories",
        body := some (Json.obj
          [("resource_provider_generation", Json.num 3),
           ("total", Json.num 20), ("reserved", Json.num 2),
           ("resource_class", Json.str "DISK_GB")]) }) :=
  C4_write_fails_iff_ge400.2.1 "http://pl" (fun _ => ⟨201, Json.null⟩)
    wProvider "DISK_GB" 20 2 _ _ rfl

/-- C8: the create POST body holds exactly the four fields
`resource_provider_generation` (verbatim the provider's `generation`),
`total`, `reserved`, `resource_class`. -/
theorem C8_create_body_fields (base : String)
    (server : Request → HttpResponse) (provider : Json) (rc : String)
    (total reserved : Int) (u gen : Json)
    (huuid : jsonGet provider "uuid" = Except.ok u)
    (hgen : jsonGet provider "generation" = Except.ok gen) :
    create_inventory base server provider rc total reserved =
      ([{ method := Method.POST,
          url := inventory_url base (pyStr u) none,
          body := some (Json.obj
            [("resource_provider_generation", gen),
             ("total", Json.num total),
             ("reserved", Json.num reserved),
             ("resource_class", Json.str rc)]) }],
       statusCheck200 (server
        { method := Method.POST,
          url := inventory_url base (pyStr u) none,
          body := some (Json.obj
            [("resource_provider_generation", gen),
             ("total", Json.num total),
             ("reserved", Json.num reserved),
             ("resource_class", Json.str rc)]) }))
    ∧ List.map Prod.fst
        [("resource_provider_generation", gen),
         ("total", Json.num total),
         ("reserved", Json.num reserved),
         ("resource_class", Json.str rc)] =
      ["resource_provider_generation", "total", "reserved",
       "resource_class"] := by
  refine ⟨?_, rfl⟩
  simp only [create_inventory, huuid, hgen]

/-- C8 witness: the create body for provider generation 3, total 20,
reserved 2, class DISK_GB. -/
theorem C8_witness :
    create_inventory "http://pl" (fun _ => ⟨200, Json.null⟩) wProvider
      "DISK_GB" 20 2 =
      ([{ method := Method.POST,
          url := "http://pl/resource_providers/U/inventories",
          body := some (Json.obj
            [("resource_provider_generation", Json.num 3),
             ("total", Json.num 20),
             ("reserved", Json.num 2),
             ("resource_class", Json.str "DISK_GB")]) }],
       Except.ok ()) :=
  (C8_create_body_fields "http://pl" (fun _ => ⟨200, Json.null⟩) wProvider
    "DISK_GB" 20 2 (Json.str "U") (Json.num 3) rfl rfl).1

/-- C9: the provider lookup fails with an `HttpError` carrying status and
body for any status ≥ 400, and on a lower status returns the first element
of the `resource_providers` array of the response body. -/
theorem C9_lookup_status_and_first (name : String) (resp : HttpResponse)
    (fields : List (String × Json)) (x : Json) (rest : List Json) :
    (400 ≤ resp.status →
      get_resource_provider name resp =
        Except.error (PyError.httpError resp.status resp.body))
    ∧ (resp.status < 400 → resp.body = Json.obj fields →
        assocLookup fields "resource_providers" =
          some (Json.arr (x :: rest)) →
        get_resource_provider name resp = Except.ok x) :=
  ⟨fun h => get_resource_provider_error_of_ge400 name resp h,
   fun hst hbody hrp =>
    get_resource_provider_first name resp hst fields x rest hbody hrp⟩

/-- C9 witness: a 500 fails with its status and body; a 200 with a
one-element array returns that element. -/
theorem C9_witness :
    get_resource_provider "myrp4" ⟨500, Json.str "boom"⟩ =
      Except.error (PyError.httpError 500 (Json.str "boom"))
    ∧ get_resource_provider "myrp4"
        ⟨200, Json.obj [("resource_providers", Json.arr [wProvider])]⟩ =
      Except.ok wProvider :=
  ⟨(C9_lookup_status_and_first "myrp4" ⟨500, Json.str "boom"⟩ [] Json.null []).1
    (by decide),
   (C9_lookup_status_and_first "myrp4"
      ⟨200, Json.obj [("resource_providers", Json.arr [wProvider])]⟩
      [("resource_providers", Json.arr [wProvider])] wProvider []).2
    (by decide) rfl rfl⟩

/-- C10: with an empty resource class the URL builder omits the trailing
class segment, so both the inventory read and the update PUT target the
inventories collection URL. -/
theorem C10_empty_class_collection_url :
    (∀ base uuid : String,
      inventory_url base uuid (some "") =
        base ++ "/resource_providers/" ++ uuid ++ "/inventories"
      ∧ inventory_url base uuid (some "") = inventory_url base uuid none
      ∧ invRequest base uuid "" =
        { method := Method.GET,
          url := base ++ "/resource_providers/" ++ uuid ++ "/inventories",
          body := none })
    ∧ (∀ (base : String) (server : Request → HttpResponse)
        (provider inventory : Json) (total reserved : Int) (req : Request)
        (res : Except PyError Unit) (u : Json),
        jsonGet provider "uuid" = Except.ok u →
        update_inventory base server provider inventory "" total reserved =
          ([req], res) →
        req.url = base ++ "/resource_providers/" ++ pyStr u ++
          "/inventories") := by
  constructor
  · intro base uuid
    exact ⟨rfl, rfl, rfl⟩
  · intro base server provider inventory total reserved req res u hu H
    unfold update_inventory at H
    rw [hu] at H
    match hi : pyDictUpdate inventory
        [("total", Json.num total), ("reserved", Json.num reserved)] with
    | Except.error e => rw [hi] at H; simp at H
    | Except.ok newInv =>
      rw [hi] at H
      simp only [Prod.mk.injEq, List.cons.injEq, and_true] at H
      rw [← H.1]
      simp [inventory_url]

/-- C10 witness: an update with the empty class PUTs to the collection
URL. -/
theorem C10_witness :
    ({ method := Method.PUT,
       url := "http://pl/resource_providers/U/inventories",
       body := some (Json.obj
         [("resource_class", Json.str "DISK_GB"), ("total", Json.num 20),
          ("reserved", Json.num 2),
          ("resource_provider_generation", Json.num 3)]) } : Request).url =
      "http://pl" ++ "/resource_providers/" ++ "U" ++ "/inventories" :=
  C10_empty_class_collection_url.2 "http://pl" (fun _ => ⟨200, Json.null⟩)
    wProvider (Json.obj wInvFields) 20 2 _ _ (Json.str "U") rfl rfl
